import Mathlib

/-
Shallow embedding of the adaptiveratelimit Go package (src/ewma.go and
src/limiter.go) and proofs of the specified properties.

Modelling conventions:
- float64 values are modelled as exact rationals (ℚ);
- time.Time instants and time.Duration values are modelled as integers (ℤ)
  counting nanoseconds, matching the int64 representation of time.Duration;
- the Go zero value of time.Time is modelled as the instant 0;
- Go int is modelled as ℤ;
- conversion float64 -> int64 truncates toward zero, modelled by truncQ;
- Go integer division truncates toward zero, modelled by Int.tdiv;
- each background goroutine iteration is modelled as an explicit step
  function on the limiter state (resetWindow for the reset loop body,
  adaptiveTick for the controller loop body);
- the stop channel is modelled by a Boolean flag recording whether it has
  been closed; closing an already-closed channel is a run-time panic in Go,
  modelled by Option (none = panic).
-/

namespace AdaptiveRateLimit

/-- EWMA from src/ewma.go: smoothing factor, current value, seeded flag. -/
structure EWMA where
  alpha : ℚ
  value : ℚ
  seeded : Bool
deriving DecidableEq

/-- NewEWMA from src/ewma.go: the value field starts at the float64 zero
value and the seeded flag at false. -/
def NewEWMA (alpha : ℚ) : EWMA :=
  { alpha := alpha, value := 0, seeded := false }

/-- EWMA.Update from src/ewma.go: the first sample seeds the value exactly;
later samples blend by the smoothing factor. -/
def EWMA.Update (e : EWMA) (sample : ℚ) : EWMA :=
  if e.seeded then
    { e with value := e.alpha * sample + (1 - e.alpha) * e.value }
  else
    { e with value := sample, seeded := true }

/-- EWMA.Value from src/ewma.go. -/
def EWMA.Value (e : EWMA) : ℚ :=
  e.value

/-- AdaptiveConfig from src/limiter.go. TargetLatency and Cooldown are
durations in nanoseconds. -/
structure AdaptiveConfig where
  TargetLatency : ℤ
  MaxErrorRate : ℚ
  IncreaseStep : ℤ
  DecreaseStep : ℤ
  MinLimit : ℤ
  MaxLimit : ℤ
  Cooldown : ℤ
deriving DecidableEq

/-- Limiter state from src/limiter.go. The mutex is left out (state passing
is sequentialized); stopClosed records whether the stop channel was closed. -/
structure Limiter where
  baseLimit : ℤ
  currentLimit : ℤ
  count : ℤ
  lastReset : ℤ
  lastAdjustment : ℤ
  latencyEWMA : EWMA
  errorEWMA : EWMA
  cfg : AdaptiveConfig
  stopClosed : Bool
deriving DecidableEq

/-- NewAdaptivePerSecond from src/limiter.go, with the construction instant
made explicit. Fields not assigned in the Go literal take Go zero values:
count = 0, lastAdjustment = the zero time (instant 0). -/
def NewAdaptivePerSecond (limit : ℤ) (cfg : AdaptiveConfig) (now : ℤ) : Limiter :=
  { baseLimit := limit
    currentLimit := limit
    count := 0
    lastReset := now
    lastAdjustment := 0
    latencyEWMA := NewEWMA (3 / 10)
    errorEWMA := NewEWMA (1 / 5)
    cfg := cfg
    stopClosed := false }

/-- Allow from src/limiter.go: returns the decision and the updated state. -/
def Limiter.Allow (l : Limiter) : Bool × Limiter :=
  if l.count ≥ l.currentLimit then
    (false, l)
  else
    (true, { l with count := l.count + 1 })

/-- The list of decisions from n consecutive Allow calls, threading state. -/
def Limiter.allowRun : ℕ → Limiter → List Bool
  | 0, _ => []
  | n + 1, l => (l.Allow).1 :: Limiter.allowRun n (l.Allow).2

/-- One iteration of the reset-loop body from src/limiter.go (startResetLoop):
zero the count and record the reset instant. -/
def Limiter.resetWindow (l : Limiter) (now : ℤ) : Limiter :=
  { l with count := 0, lastReset := now }

/-- increaseLimit from src/limiter.go. -/
def Limiter.increaseLimit (l : Limiter) : Limiter :=
  let c := l.currentLimit + l.cfg.IncreaseStep
  if c > l.cfg.MaxLimit then
    { l with currentLimit := l.cfg.MaxLimit }
  else
    { l with currentLimit := c }

/-- decreaseLimit from src/limiter.go. -/
def Limiter.decreaseLimit (l : Limiter) : Limiter :=
  let c := l.currentLimit - l.cfg.DecreaseStep
  if c < l.cfg.MinLimit then
    { l with currentLimit := l.cfg.MinLimit }
  else
    { l with currentLimit := c }

/-- Truncation of a rational toward zero, the semantics of the Go conversion
float64 -> int64 used in time.Duration(...) conversions. -/
def truncQ (q : ℚ) : ℤ :=
  q.num.tdiv q.den

/-- Duration.Milliseconds from the Go standard library: integer division of
the nanosecond count by one million, truncating toward zero. -/
def Milliseconds (d : ℤ) : ℤ :=
  Int.tdiv d 1000000

/-- The avgLatency value computed inside the controller loop body:
time.Duration(l.latencyEWMA.Value()) * time.Millisecond. -/
def Limiter.controllerLatency (l : Limiter) : ℤ :=
  truncQ l.latencyEWMA.Value * 1000000

/-- One iteration of the controller-loop body from src/limiter.go
(startAdaptiveLoop), at instant now. -/
def Limiter.adaptiveTick (l : Limiter) (now : ℤ) : Limiter :=
  if now - l.lastAdjustment < l.cfg.Cooldown then
    l
  else if l.controllerLatency > l.cfg.TargetLatency ∨ l.errorEWMA.Value > l.cfg.MaxErrorRate then
    { l.decreaseLimit with lastAdjustment := now }
  else
    { l.increaseLimit with lastAdjustment := now }

/-- A sequence of controller-loop iterations at the given instants. -/
def Limiter.ticks : Limiter → List ℤ → Limiter
  | l, [] => l
  | l, t :: ts => Limiter.ticks (l.adaptiveTick t) ts

/-- Record from src/limiter.go: latency is fed as its whole-millisecond
count, the outcome as a 0/1 indicator. -/
def Limiter.Record (l : Limiter) (latency : ℤ) (failed : Bool) : Limiter :=
  { l with
    latencyEWMA := l.latencyEWMA.Update ((Milliseconds latency : ℤ) : ℚ)
    errorEWMA := l.errorEWMA.Update (if failed then 1 else 0) }

/-- Stop from src/limiter.go: close(l.stopCh). Closing an already-closed
channel panics at run time in Go; the panic is modelled as none. -/
def Limiter.Stop (l : Limiter) : Option Limiter :=
  if l.stopClosed then
    none
  else
    some { l with stopClosed := true }

/-- CurrentLimit from src/limiter.go. -/
def Limiter.CurrentLimit (l : Limiter) : ℤ :=
  l.currentLimit

/-- ErrorRate from src/limiter.go. -/
def Limiter.ErrorRate (l : Limiter) : ℚ :=
  l.errorEWMA.Value

/-- AverageLatency from src/limiter.go: time.Duration(l.latencyEWMA.Value()),
a nanosecond count obtained by truncating the stored float. -/
def Limiter.AverageLatency (l : Limiter) : ℤ :=
  truncQ l.latencyEWMA.Value

/-- A concrete configuration (the one used by the package tests, with the
cooldown of the README examples), for witnesses. -/
def cfg0 : AdaptiveConfig :=
  { TargetLatency := 200000000
    MaxErrorRate := mkRat 1 20
    IncreaseStep := 1
    DecreaseStep := 2
    MinLimit := 1
    MaxLimit := 100
    Cooldown := 1000000000 }

/-- A concrete limiter for witnesses. -/
def L0 : Limiter :=
  NewAdaptivePerSecond 10 cfg0 0

/-- L0 with its window exhausted, for witnesses. -/
def L1 : Limiter :=
  { L0 with count := 10 }

/-- A seeded estimator, for witnesses. -/
def E1 : EWMA :=
  (NewEWMA (1 / 2)).Update 100

/-- The increase branch moves the ceiling to the clamped sum. -/
lemma increaseLimit_currentLimit (l : Limiter) :
    l.increaseLimit.currentLimit = min (l.currentLimit + l.cfg.IncreaseStep) l.cfg.MaxLimit := by
  simp only [Limiter.increaseLimit]
  split <;> dsimp only <;> omega

/-- The decrease branch moves the ceiling to the clamped difference. -/
lemma decreaseLimit_currentLimit (l : Limiter) :
    l.decreaseLimit.currentLimit = max (l.currentLimit - l.cfg.DecreaseStep) l.cfg.MinLimit := by
  simp only [Limiter.decreaseLimit]
  split <;> dsimp only <;> omega

/-- The two adjustment branches leave the configuration unchanged. -/
lemma increaseLimit_cfg (l : Limiter) : l.increaseLimit.cfg = l.cfg := by
  simp only [Limiter.increaseLimit]
  split <;> rfl

lemma decreaseLimit_cfg (l : Limiter) : l.decreaseLimit.cfg = l.cfg := by
  simp only [Limiter.decreaseLimit]
  split <;> rfl

/-- A controller-loop iteration leaves the configuration unchanged. -/
lemma adaptiveTick_cfg (l : Limiter) (now : ℤ) : (l.adaptiveTick now).cfg = l.cfg := by
  simp only [Limiter.adaptiveTick]
  split
  · rfl
  split
  · exact decreaseLimit_cfg l
  · exact increaseLimit_cfg l

/-- A gated controller-loop iteration is the identity. -/
lemma adaptiveTick_of_cooldown (l : Limiter) (now : ℤ)
    (h : now - l.lastAdjustment < l.cfg.Cooldown) : l.adaptiveTick now = l := by
  simp [Limiter.adaptiveTick, h]

/-- An eligible controller-loop iteration records now as the adjustment instant. -/
lemma adaptiveTick_lastAdjustment (l : Limiter) (now : ℤ)
    (h : l.cfg.Cooldown ≤ now - l.lastAdjustment) :
    (l.adaptiveTick now).lastAdjustment = now := by
  simp only [Limiter.adaptiveTick, if_neg (not_lt.mpr h)]
  split <;> rfl

/-- One controller-loop iteration keeps the ceiling within configured bounds. -/
lemma adaptiveTick_bounds (l : Limiter) (now : ℤ)
    (hinc : 0 ≤ l.cfg.IncreaseStep) (hdec : 0 ≤ l.cfg.DecreaseStep)
    (h1 : l.cfg.MinLimit ≤ l.currentLimit) (h2 : l.currentLimit ≤ l.cfg.MaxLimit) :
    l.cfg.MinLimit ≤ (l.adaptiveTick now).currentLimit ∧
      (l.adaptiveTick now).currentLimit ≤ l.cfg.MaxLimit := by
  simp only [Limiter.adaptiveTick]
  split
  · exact ⟨h1, h2⟩
  split
  · have := decreaseLimit_currentLimit l
    constructor <;> simp only [this] <;> omega
  · have := increaseLimit_currentLimit l
    constructor <;> simp only [this] <;> omega

/-- Any sequence of controller-loop iterations keeps the ceiling within bounds. -/
lemma ticks_bounds (ts : List ℤ) (l : Limiter)
    (hinc : 0 ≤ l.cfg.IncreaseStep) (hdec : 0 ≤ l.cfg.DecreaseStep)
    (h1 : l.cfg.MinLimit ≤ l.currentLimit) (h2 : l.currentLimit ≤ l.cfg.MaxLimit) :
    l.cfg.MinLimit ≤ (l.ticks ts).currentLimit ∧
      (l.ticks ts).currentLimit ≤ l.cfg.MaxLimit := by
  induction ts generalizing l with
  | nil => exact ⟨h1, h2⟩
  | cons t ts ih =>
    have hcfg := adaptiveTick_cfg l t
    have hb := adaptiveTick_bounds l t hinc hdec h1 h2
    have := ih (l.adaptiveTick t) (by rw [hcfg]; exact hinc) (by rw [hcfg]; exact hdec)
      (by rw [hcfg]; exact hb.1) (by rw [hcfg]; exact hb.2)
    rw [hcfg] at this
    exact this

/-- C1 counterexample: construction does not clamp the initial limit, so a
limiter built with initial limit 200 under bounds [1, 100] starts with its
ceiling above the configured maximum. -/
theorem C1_counterexample :
    ¬ ((NewAdaptivePerSecond 200 cfg0 0).currentLimit ≤
        (NewAdaptivePerSecond 200 cfg0 0).cfg.MaxLimit) := by
  decide

/-- C1 (amended): provided the initial limit lies within [MinLimit, MaxLimit]
and both steps are nonnegative, the ceiling satisfies
MinLimit ≤ currentLimit ≤ MaxLimit immediately after construction and after
any number of controller ticks. -/
theorem C1_ceiling_bounds (limit : ℤ) (cfg : AdaptiveConfig) (now : ℤ) (ts : List ℤ)
    (hinc : 0 ≤ cfg.IncreaseStep) (hdec : 0 ≤ cfg.DecreaseStep)
    (h1 : cfg.MinLimit ≤ limit) (h2 : limit ≤ cfg.MaxLimit) :
    cfg.MinLimit ≤ ((NewAdaptivePerSecond limit cfg now).ticks ts).currentLimit ∧
      ((NewAdaptivePerSecond limit cfg now).ticks ts).currentLimit ≤ cfg.MaxLimit :=
  ticks_bounds ts (NewAdaptivePerSecond limit cfg now) hinc hdec h1 h2

/-- Witness for C1 at a concrete configuration and tick sequence. -/
theorem C1_ceiling_bounds_witness :
    cfg0.MinLimit ≤ ((NewAdaptivePerSecond 10 cfg0 0).ticks [2000000000]).currentLimit ∧
      ((NewAdaptivePerSecond 10 cfg0 0).ticks [2000000000]).currentLimit ≤ cfg0.MaxLimit :=
  C1_ceiling_bounds 10 cfg0 0 [2000000000] (by decide) (by decide) (by decide) (by decide)

/-- The decisions of n consecutive Allow calls include at most
max (currentLimit - count) 0 admissions. -/
lemma allowRun_count_le (n : ℕ) (l : Limiter) :
    ((Limiter.allowRun n l).count true : ℤ) ≤ max (l.currentLimit - l.count) 0 := by
  induction n generalizing l with
  | zero => simp [Limiter.allowRun]
  | succ n ih =>
    by_cases h : l.count ≥ l.currentLimit
    · have hA : l.Allow = (false, l) := by simp [Limiter.Allow, h]
      have hrec := ih l
      simp only [Limiter.allowRun, hA]
      simp [List.count_cons]
      omega
    · have hA : l.Allow = (true, { l with count := l.count + 1 }) := by
        simp [Limiter.Allow, h]
      have hrec := ih { l with count := l.count + 1 }
      simp only [Limiter.allowRun, hA]
      simp [List.count_cons]
      push_cast at hrec
      omega

/-- C2: Allow admits exactly when the count is strictly below the ceiling,
incrementing the count by one; otherwise it rejects and changes nothing;
whenever it admits, the new count stays at most the ceiling; and any run of
n consecutive Allow calls from a nonnegative count under a nonnegative
ceiling admits at most ceiling-many calls. -/
theorem C2_allow (l : Limiter) (n : ℕ) :
    (l.count < l.currentLimit → l.Allow = (true, { l with count := l.count + 1 })) ∧
    (l.currentLimit ≤ l.count → l.Allow = (false, l)) ∧
    ((l.Allow).1 = true → (l.Allow).2.count ≤ l.currentLimit) ∧
    (0 ≤ l.count → 0 ≤ l.currentLimit →
      ((Limiter.allowRun n l).count true : ℤ) ≤ l.currentLimit) := by
  refine ⟨?_, ?_, ?_, ?_⟩
  · intro h
    simp [Limiter.Allow, not_le.mpr h]
  · intro h
    simp [Limiter.Allow, h]
  · intro h
    by_cases hc : l.count ≥ l.currentLimit
    · simp [Limiter.Allow, hc] at h
    · have hcount : (l.Allow).2.count = l.count + 1 := by simp [Limiter.Allow, hc]
      omega
  · intro h0 h1
    have := allowRun_count_le n l
    omega

/-- Witness for C2: the fresh limiter L0 admits and increments; the
exhausted limiter L1 rejects unchanged; a run of 12 calls on L0 admits at
most 10. -/
theorem C2_allow_witness :
    L0.Allow = (true, { L0 with count := L0.count + 1 }) ∧
    L1.Allow = (false, L1) ∧
    ((Limiter.allowRun 12 L0).count true : ℤ) ≤ L0.currentLimit :=
  ⟨(C2_allow L0 12).1 (by decide),
   (C2_allow L1 12).2.1 (by decide),
   (C2_allow L0 12).2.2.2 (by decide) (by decide)⟩

/-- C3: on a cooldown-eligible tick, the ceiling is decreased by the
decrease step clamped at MinLimit when the smoothed latency exceeds the
target or the smoothed failure rate exceeds the maximum, and otherwise
increased by the increase step clamped at MaxLimit. -/
theorem C3_controller_decision (l : Limiter) (now : ℤ)
    (h : l.cfg.Cooldown ≤ now - l.lastAdjustment) :
    (l.adaptiveTick now).currentLimit =
      if l.controllerLatency > l.cfg.TargetLatency ∨ l.errorEWMA.Value > l.cfg.MaxErrorRate then
        max (l.currentLimit - l.cfg.DecreaseStep) l.cfg.MinLimit
      else
        min (l.currentLimit + l.cfg.IncreaseStep) l.cfg.MaxLimit := by
  simp only [Limiter.adaptiveTick, if_neg (not_lt.mpr h)]
  by_cases hcond :
      l.controllerLatency > l.cfg.TargetLatency ∨ l.errorEWMA.Value > l.cfg.MaxErrorRate
  · simp only [if_pos hcond]
    exact decreaseLimit_currentLimit l
  · simp only [if_neg hcond]
    exact increaseLimit_currentLimit l

/-- Witness for C3 at the fresh limiter L0 and an eligible instant. -/
theorem C3_controller_decision_witness :
    (L0.adaptiveTick 2000000000).currentLimit =
      if L0.controllerLatency > L0.cfg.TargetLatency ∨
          L0.errorEWMA.Value > L0.cfg.MaxErrorRate then
        max (L0.currentLimit - L0.cfg.DecreaseStep) L0.cfg.MinLimit
      else
        min (L0.currentLimit + L0.cfg.IncreaseStep) L0.cfg.MaxLimit :=
  C3_controller_decision L0 2000000000 (by decide)

/-- C4: a tick inside the cooldown changes no state at all; an eligible
tick records the tick instant as the last adjustment even when the ceiling
is saturated; and two ticks separated by less than the cooldown leave at
least one of the two as the identity, so at most one net ceiling change
occurs across both. -/
theorem C4_cooldown_gating (l : Limiter) (now t1 t2 : ℤ) :
    (now - l.lastAdjustment < l.cfg.Cooldown → l.adaptiveTick now = l) ∧
    (l.cfg.Cooldown ≤ now - l.lastAdjustment →
      (l.adaptiveTick now).lastAdjustment = now) ∧
    (t2 - t1 < l.cfg.Cooldown →
      (l.adaptiveTick t1).adaptiveTick t2 = l.adaptiveTick t1 ∨ l.adaptiveTick t1 = l) := by
  refine ⟨adaptiveTick_of_cooldown l now, adaptiveTick_lastAdjustment l now, ?_⟩
  intro h
  by_cases h1 : t1 - l.lastAdjustment < l.cfg.Cooldown
  · exact Or.inr (adaptiveTick_of_cooldown l t1 h1)
  · left
    apply adaptiveTick_of_cooldown
    rw [adaptiveTick_lastAdjustment l t1 (not_lt.mp h1), adaptiveTick_cfg]
    exact h

/-- Witness for C4 at the fresh limiter L0. -/
theorem C4_cooldown_gating_witness :
    L0.adaptiveTick (-5) = L0 ∧
    (L0.adaptiveTick 2000000000).lastAdjustment = 2000000000 ∧
    ((L0.adaptiveTick 1500000000).adaptiveTick 2000000000 = L0.adaptiveTick 1500000000 ∨
      L0.adaptiveTick 1500000000 = L0) :=
  ⟨(C4_cooldown_gating L0 (-5) 0 0).1 (by decide),
   (C4_cooldown_gating L0 2000000000 0 0).2.1 (by decide),
   (C4_cooldown_gating L0 0 1500000000 2000000000).2.2 (by decide)⟩

/-- C5: a fresh estimator is unseeded; the first Update sets the stored
value exactly to the first sample and seeds the estimator; Update always
leaves the estimator seeded; a seeded Update blends by alpha; and the
smoothing factor never changes after construction. -/
theorem C5_ewma_update (a s : ℚ) (e : EWMA) :
    (NewEWMA a).seeded = false ∧
    ((NewEWMA a).Update s).value = s ∧
    ((NewEWMA a).Update s).seeded = true ∧
    (e.Update s).seeded = true ∧
    (e.seeded = true → (e.Update s).value = e.alpha * s + (1 - e.alpha) * e.value) ∧
    (e.Update s).alpha = e.alpha := by
  refine ⟨rfl, rfl, rfl, ?_, ?_, ?_⟩
  · by_cases h : e.seeded <;> simp [EWMA.Update, h]
  · intro h
    simp [EWMA.Update, h]
  · by_cases h : e.seeded <;> simp [EWMA.Update, h]

/-- Witness for C5: a second Update on the seeded estimator E1 blends. -/
theorem C5_ewma_update_witness :
    (E1.Update 30).value = E1.alpha * 30 + (1 - E1.alpha) * E1.value :=
  (C5_ewma_update 1 30 E1).2.2.2.2.1 (by decide)

/-- C6 failing input: the first Stop closes the stop channel, and a second
Stop on the same limiter closes an already-closed channel, which panics at
run time in Go, contradicting the documented idempotence. -/
theorem C6_double_stop :
    (NewAdaptivePerSecond 10 cfg0 0).Stop =
      some { NewAdaptivePerSecond 10 cfg0 0 with stopClosed := true } ∧
    ((NewAdaptivePerSecond 10 cfg0 0).Stop).bind Limiter.Stop = none :=
  ⟨rfl, rfl⟩

/-- C7: Record feeds the whole-millisecond latency into the latency
estimator and a 0/1 indicator into the failure estimator, and changes no
other field of the limiter. -/
theorem C7_record_frame (l : Limiter) (d : ℤ) (failed : Bool) :
    (l.Record d failed).currentLimit = l.currentLimit ∧
    (l.Record d failed).count = l.count ∧
    (l.Record d failed).lastReset = l.lastReset ∧
    (l.Record d failed).lastAdjustment = l.lastAdjustment ∧
    (l.Record d failed).baseLimit = l.baseLimit ∧
    (l.Record d failed).cfg = l.cfg ∧
    (l.Record d failed).latencyEWMA = l.latencyEWMA.Update ((Milliseconds d : ℤ) : ℚ) ∧
    (l.Record d failed).errorEWMA = l.errorEWMA.Update (if failed then 1 else 0) :=
  ⟨rfl, rfl, rfl, rfl, rfl, rfl, rfl, rfl⟩

/-- C8: resetWindow zeroes the count, records the new window-start instant,
changes nothing else, and afterwards the next Allow call admits whenever the
current ceiling is positive. -/
theorem C8_reset_window (l : Limiter) (now : ℤ) :
    (l.resetWindow now).count = 0 ∧
    (l.resetWindow now).lastReset = now ∧
    (l.resetWindow now).currentLimit = l.currentLimit ∧
    (l.resetWindow now).lastAdjustment = l.lastAdjustment ∧
    (l.resetWindow now).latencyEWMA = l.latencyEWMA ∧
    (l.resetWindow now).errorEWMA = l.errorEWMA ∧
    (l.resetWindow now).baseLimit = l.baseLimit ∧
    (l.resetWindow now).cfg = l.cfg ∧
    (0 < l.currentLimit → ((l.resetWindow now).Allow).1 = true) := by
  refine ⟨rfl, rfl, rfl, rfl, rfl, rfl, rfl, rfl, ?_⟩
  intro h
  simp [Limiter.resetWindow, Limiter.Allow, not_le.mpr h]

/-- Witness for C8: resetting the exhausted limiter L1 makes Allow admit. -/
theorem C8_reset_window_witness :
    ((L1.resetWindow 7).Allow).1 = true :=
  (C8_reset_window L1 7).2.2.2.2.2.2.2.2 (by decide)

/-- C9: an unseeded estimator reports value 0, so a limiter that never saw
Record reports failure rate 0 and average latency 0, and a cooldown-eligible
tick under nonnegative thresholds takes the healthy branch and increases the
ceiling. -/
theorem C9_unseeded_healthy (a : ℚ) (limit : ℤ) (cfg : AdaptiveConfig) (now t : ℤ)
    (hcd : cfg.Cooldown ≤ t - (NewAdaptivePerSecond limit cfg now).lastAdjustment)
    (htl : 0 ≤ cfg.TargetLatency) (her : 0 ≤ cfg.MaxErrorRate) :
    (NewEWMA a).Value = 0 ∧
    (NewAdaptivePerSecond limit cfg now).ErrorRate = 0 ∧
    (NewAdaptivePerSecond limit cfg now).AverageLatency = 0 ∧
    ((NewAdaptivePerSecond limit cfg now).adaptiveTick t).currentLimit =
      min (limit + cfg.IncreaseStep) cfg.MaxLimit := by
  have hlat : (NewAdaptivePerSecond limit cfg now).controllerLatency = 0 := by
    simp [Limiter.controllerLatency, NewAdaptivePerSecond, NewEWMA, EWMA.Value, truncQ]
  have herr : (NewAdaptivePerSecond limit cfg now).errorEWMA.Value = 0 := rfl
  refine ⟨rfl, rfl, ?_, ?_⟩
  · simp [Limiter.AverageLatency, NewAdaptivePerSecond, NewEWMA, EWMA.Value, truncQ]
  have hcd2 :
      ¬ (t - (NewAdaptivePerSecond limit cfg now).lastAdjustment <
          (NewAdaptivePerSecond limit cfg now).cfg.Cooldown) :=
    not_lt.mpr hcd
  have hcond :
      ¬ ((NewAdaptivePerSecond limit cfg now).controllerLatency >
            (NewAdaptivePerSecond limit cfg now).cfg.TargetLatency ∨
          (NewAdaptivePerSecond limit cfg now).errorEWMA.Value >
            (NewAdaptivePerSecond limit cfg now).cfg.MaxErrorRate) := by
    push_neg
    rw [hlat, herr]
    exact ⟨htl, her⟩
  simp only [Limiter.adaptiveTick, if_neg hcd2, if_neg hcond]
  rw [increaseLimit_currentLimit]
  rfl

/-- Witness for C9 at a concrete configuration and eligible instant. -/
theorem C9_unseeded_healthy_witness :
    (NewEWMA (1 / 2)).Value = 0 ∧
    (NewAdaptivePerSecond 10 cfg0 0).ErrorRate = 0 ∧
    (NewAdaptivePerSecond 10 cfg0 0).AverageLatency = 0 ∧
    ((NewAdaptivePerSecond 10 cfg0 0).adaptiveTick 2000000000).currentLimit =
      min (10 + cfg0.IncreaseStep) cfg0.MaxLimit :=
  C9_unseeded_healthy (1 / 2) 10 cfg0 0 2000000000 (by decide) (by decide) (by decide)

/-- Truncation toward zero is the identity on integer-valued rationals. -/
lemma truncQ_intCast (m : ℤ) : truncQ (m : ℚ) = m := by
  simp [truncQ, Rat.num_intCast, Rat.den_intCast, Int.tdiv_one]

/-- C10: after one Record on a fresh limiter, AverageLatency returns the
recorded whole-millisecond count reinterpreted as a nanosecond duration
(the recorded value scaled down by a factor of one million), while the
controller converts the same stored value by multiplying it by one
millisecond. -/
theorem C10_latency_units (limit d : ℤ) (cfg : AdaptiveConfig) (now : ℤ) (failed : Bool) :
    ((NewAdaptivePerSecond limit cfg now).Record d failed).AverageLatency =
      Milliseconds d ∧
    ((NewAdaptivePerSecond limit cfg now).Record d failed).controllerLatency =
      Milliseconds d * 1000000 := by
  have h : ((NewAdaptivePerSecond limit cfg now).Record d failed).latencyEWMA.Value =
      ((Milliseconds d : ℤ) : ℚ) := by
    simp [Limiter.Record, NewAdaptivePerSecond, NewEWMA, EWMA.Update, EWMA.Value]
  constructor
  · rw [Limiter.AverageLatency, h, truncQ_intCast]
  · rw [Limiter.controllerLatency, h, truncQ_intCast]

end AdaptiveRateLimit
